import Mathlib

/-!
Verification development for `kernel/freezer.c` (cooperative task-quiescing
protocol: freeze predicate, refrigerator loop, freeze request, thaw,
freezable registration).

Modelling conventions:
* Machine words holding per-task flag bits (`PF_NOFREEZE`, `PF_FREEZER_NOSIG`,
  `PF_FREEZING`, `PF_FROZEN`) are modelled as separate Booleans of a `Task`
  structure, together with the scheduling state (`current->state`) and the
  pending-signal marker (`TIF_SIGPENDING`).
* The globals read by the freezer (`system_freezing_cnt`, `pm_freezing`,
  `pm_nosig_freezing`) and the external predicates (`cgroup_freezing`,
  `kthread_should_stop`) form an `Env` value. Concurrent mutation of this
  environment by coordinators is modelled by supplying a possibly different
  `Env` at every atomic step of the task-side state machine.
* Each `freezer_lock` critical section of the source is one atomic step of
  the state machine, so a check-then-mutate sequence done under the lock is
  indivisible in the model, exactly as the lock makes it in the source.
-/

namespace Freezer

/-- Scheduling states of a task (`current->state`): `TASK_RUNNING`,
`TASK_INTERRUPTIBLE`, `TASK_UNINTERRUPTIBLE`, `TASK_STOPPED`. -/
inductive SchedState where
  | running
  | interruptible
  | uninterruptible
  | stopped
deriving DecidableEq

/-- Per-task freezer-relevant state: the flag bits of `p->flags` read or
written by `kernel/freezer.c`, the scheduling state, and the pending-signal
marker (`TIF_SIGPENDING`). -/
structure Task where
  no_freeze : Bool        -- PF_NOFREEZE
  freezer_nosig : Bool    -- PF_FREEZER_NOSIG
  pf_freezing : Bool      -- PF_FREEZING
  pf_frozen : Bool        -- PF_FROZEN
  sched : SchedState      -- current->state
  sigpending : Bool       -- TIF_SIGPENDING
deriving DecidableEq

/-- The Freezing Condition Registry: `system_freezing_cnt` (atomic counter),
`pm_freezing` and `pm_nosig_freezing` (globals of `kernel/freezer.c`). -/
structure Registry where
  system_freezing_cnt : Nat
  pm_freezing : Bool
  pm_nosig_freezing : Bool
deriving DecidableEq

/-- Environment a freezer operation executes in: the registry plus the
external predicates `cgroup_freezing(p)` and `kthread_should_stop()`. -/
structure Env where
  reg : Registry
  cgroup_freezing : Bool
  kthread_should_stop : Bool
deriving DecidableEq

/-- `freezing_slow_path` from `kernel/freezer.c`: tests whether task `p`
needs to enter and stay in the frozen state.  Opted-out tasks
(`PF_NOFREEZE`) are never targets; otherwise no-signal freezing or the
cgroup predicate force freezing; otherwise signaled (PM) freezing applies
to tasks without `PF_FREEZER_NOSIG`. -/
def freezing_slow_path (e : Env) (p : Task) : Bool :=
  if p.no_freeze then false
  else if e.reg.pm_nosig_freezing || e.cgroup_freezing then true
  else if e.reg.pm_freezing && !p.freezer_nosig then true
  else false

/-- Modelled from the spec: the `freezing()` fast path lives in the freezer
header, not in the repository sources; per the source comment on
`freezing_slow_path` ("called by freezing() if system_freezing_cnt isn't
zero") and the registry description (`active_count > 0` iff some freezing
condition exists), `freezing` returns false when the counter is zero and
otherwise defers to `freezing_slow_path`.  This is the spec's
`should_freeze` predicate. -/
def freezing (e : Env) (p : Task) : Bool :=
  if e.reg.system_freezing_cnt = 0 then false else freezing_slow_path e p

/-- Modelled from the spec: `frozen(p)` (freezer header, not under the
repository sources) reads the task's `PF_FROZEN` bit — the spec's
`is_frozen`. -/
def frozen (p : Task) : Bool := p.pf_frozen

/-- Modelled from the spec: `should_send_signal(p)` (freezer header, not
under the repository sources) — the signal-like notification channel is
used exactly when the task has not set `PF_FREEZER_NOSIG` (spec §4.3:
"should be notified via the signal-like channel (`¬task.freezer_nosig`)"). -/
def should_send_signal (p : Task) : Bool := !p.freezer_nosig

/-- Which wake primitive `freeze_task` invoked on the target: the
signal-like wake with pending-interrupt marker (`fake_signal_wake_up`) or
the plain interruptible-state wake (`wake_up_state(p, TASK_INTERRUPTIBLE)`). -/
inductive WakeKind where
  | signalWake
  | plainWake
deriving DecidableEq

/-- `freeze_task` from `kernel/freezer.c`: under `freezer_lock`, return
`(false, none)` if `p` is not freezing or already frozen; otherwise deliver
exactly one wake — `fake_signal_wake_up` when `should_send_signal p`, else
`wake_up_state(p, TASK_INTERRUPTIBLE)` — and return true.  The delivered
wake is reported as the second component. -/
def freeze_task (e : Env) (p : Task) : Bool × Option WakeKind :=
  if !freezing e p || frozen p then (false, none)
  else if should_send_signal p then (true, some WakeKind.signalWake)
  else (true, some WakeKind.plainWake)

/-- Modelled from the spec: `wake_up_process` (external scheduler primitive,
spec §4.4 step 1: "issue a plain wake (transition scheduling state to
runnable)"). -/
def wake_up_process (p : Task) : Task := { p with sched := SchedState.running }

/-- Modelled from the spec: `recalc_sigpending_and_wake` (external
notification primitive, spec §4.4 step 2 and §6 `reconcile_pending_notification`):
recompute whether a pending-interrupt marker is still outstanding from the
externally pending triggers `has_pending`, and if one remains, wake the task
out of an interruptible wait. -/
def recalc_sigpending_and_wake (has_pending : Bool) (p : Task) : Task :=
  let q := { p with sigpending := has_pending }
  if has_pending && decide (q.sched = SchedState.interruptible) then
    { q with sched := SchedState.running }
  else q

/-- `__thaw_task` from `kernel/freezer.c`: under `freezer_lock`, wake the
task if it is frozen; otherwise reconcile its pending-notification
bookkeeping under the task's own signal lock.  `has_pending` is the
externally owned fact "does this task still have a genuinely pending
trigger", an input of the excluded notification subsystem. -/
def __thaw_task (has_pending : Bool) (p : Task) : Task :=
  if frozen p then wake_up_process p
  else recalc_sigpending_and_wake has_pending p

/-- Program points of `__refrigerator` from `kernel/freezer.c`.  Each
constructor is the start of one atomic step; every `freezer_lock` critical
section is a single step:
* `enterFrozen` — lock; `repeat:`; set `PF_FROZEN`; unlock.
* `saveState` — `save = current->state`.
* `clearSignal` — take the signal lock and `recalc_sigpending()` (clear the
  fake-signal marker).
* `setFreezing` — set `PF_FREEZING` (exclude from load accounting).
* `waitLoop` — one iteration of the wait loop: set state
  `TASK_UNINTERRUPTIBLE`; if `!freezing()` (or a cancellation request with
  `check_kthr_stop`) break, else record `was_frozen` and `schedule()`.
* `clearFreezing` — clear `PF_FREEZING`.
* `exitCheck` — lock; if `freezing()` goto `repeat` (set `PF_FROZEN`,
  unlock, continue at `saveState`), else clear `PF_FROZEN`; unlock.
* `restoreState` — `set_current_state(save)`.
* `done` — return `was_frozen`. -/
inductive RPC where
  | enterFrozen
  | saveState
  | clearSignal
  | setFreezing
  | waitLoop
  | clearFreezing
  | exitCheck
  | restoreState
  | done
deriving DecidableEq

/-- Execution state of a task running `__refrigerator`: the task itself, the
local variables `save` and `was_frozen`, the program point, and a history
(ghost) field `everFreezing` recording whether the `PF_FREEZING` flag has
been observed true at or before the current instant. -/
structure RState where
  task : Task
  save : SchedState
  was_frozen : Bool
  everFreezing : Bool
  pc : RPC
deriving DecidableEq

/-- One atomic step of `__refrigerator check_kthr_stop`.  The environment
`e` holds the registry and external predicates as they stand during this
step; a fresh environment is supplied at each step to model concurrent
coordinators. -/
def refrigeratorStep (check_kthr_stop : Bool) (e : Env) (s : RState) : RState :=
  match s.pc with
  | RPC.enterFrozen =>
      { s with task := { s.task with pf_frozen := true }, pc := RPC.saveState }
  | RPC.saveState =>
      { s with save := s.task.sched, pc := RPC.clearSignal }
  | RPC.clearSignal =>
      { s with task := { s.task with sigpending := false }, pc := RPC.setFreezing }
  | RPC.setFreezing =>
      { s with task := { s.task with pf_freezing := true }, everFreezing := true,
               pc := RPC.waitLoop }
  | RPC.waitLoop =>
      let t := { s.task with sched := SchedState.uninterruptible }
      if !freezing e t || (check_kthr_stop && e.kthread_should_stop) then
        { s with task := t, pc := RPC.clearFreezing }
      else
        { s with task := t, was_frozen := true, pc := RPC.waitLoop }
  | RPC.clearFreezing =>
      { s with task := { s.task with pf_freezing := false }, pc := RPC.exitCheck }
  | RPC.exitCheck =>
      if freezing e s.task then
        { s with task := { s.task with pf_frozen := true }, pc := RPC.saveState }
      else
        { s with task := { s.task with pf_frozen := false }, pc := RPC.restoreState }
  | RPC.restoreState =>
      { s with task := { s.task with sched := s.save }, pc := RPC.done }
  | RPC.done => s

/-- Run `__refrigerator` for one step per environment in `envs`. -/
def refrigeratorRun (b : Bool) : List Env → RState → RState
  | [], s => s
  | e :: rest, s => refrigeratorRun b rest (refrigeratorStep b e s)

/-- Initial `__refrigerator` execution state for task `t`: at `enterFrozen`,
`was_frozen = false` (line 54), `save` not yet written (its initial value is
irrelevant; it is written before first use), and the history field seeded
with the task's current `PF_FREEZING` bit. -/
def refrigeratorInit (t : Task) : RState :=
  { task := t, save := t.sched, was_frozen := false, everFreezing := t.pf_freezing,
    pc := RPC.enterFrozen }

/-- `noReentry b envs s = true` iff the run of `__refrigerator` from `s`
under `envs` never takes the `goto repeat` branch: at every visit to the
exit re-check the predicate evaluates false. -/
def noReentry (b : Bool) : List Env → RState → Bool
  | [], _ => true
  | e :: rest, s =>
      (if s.pc = RPC.exitCheck then !freezing e s.task else true) &&
      noReentry b rest (refrigeratorStep b e s)

/-- Per-task flag clearing of `__set_freezable` (`kernel/freezer.c` lines
193–197): under `freezer_lock`, clear `PF_NOFREEZE` and, when `with_signal`,
also `PF_FREEZER_NOSIG`. -/
def set_freezable_flags (with_signal : Bool) (t : Task) : Task :=
  { t with no_freeze := false,
           freezer_nosig := if with_signal then false else t.freezer_nosig }

/-- Modelled from the spec: `try_to_freeze` (freezer header, not under the
repository sources) — evaluate the freeze predicate on the current task and,
if it holds, run `__refrigerator false` and return its result, else return
false (spec §4.5 step 2).  `e0` is the environment at the predicate check,
`envs` the environments of the subsequent refrigerator steps; the final
refrigerator execution state is returned alongside the result. -/
def try_to_freeze (e0 : Env) (envs : List Env) (t : Task) : Bool × RState :=
  if freezing e0 t then
    let s := refrigeratorRun false envs (refrigeratorInit t)
    (s.was_frozen, s)
  else (false, { refrigeratorInit t with pc := RPC.done })

/-- `__set_freezable` from `kernel/freezer.c`: clear the opt-out flags under
`freezer_lock`, then `try_to_freeze()`. -/
def __set_freezable (with_signal : Bool) (e0 : Env) (envs : List Env) (t : Task) :
    Bool × RState :=
  try_to_freeze e0 envs (set_freezable_flags with_signal t)

/-- Sample environment: no freezing condition in effect. -/
def envIdle : Env :=
  { reg := { system_freezing_cnt := 0, pm_freezing := false, pm_nosig_freezing := false },
    cgroup_freezing := false, kthread_should_stop := false }

/-- Sample environment: one active no-signal freezing episode. -/
def envNosigActive : Env :=
  { reg := { system_freezing_cnt := 1, pm_freezing := false, pm_nosig_freezing := true },
    cgroup_freezing := false, kthread_should_stop := false }

/-- Sample task with default (all-clear) freezer flags, currently running. -/
def taskDefault : Task :=
  { no_freeze := false, freezer_nosig := false, pf_freezing := false,
    pf_frozen := false, sched := SchedState.running, sigpending := false }

/-- Sample task that has opted out of freezing (`PF_NOFREEZE`). -/
def taskOptedOut : Task := { taskDefault with no_freeze := true }

end Freezer

namespace Freezer

/-- Claim C2: the freeze predicate evaluates exactly the ordered logic of
`freezing_slow_path`: an opted-out task is never a target; else no-signal
freezing or the external group predicate force freezing; else signaled
freezing applies when `freezer_nosig` is clear; else false.  In particular
a task with `freezer_nosig = true` under a registry with only
`signaled_freezing = true` (and group predicate false) gets
`should_freeze = false`. -/
theorem freezing_slow_path_spec (e : Env) (p : Task) :
    (freezing_slow_path e p = true ↔
      (p.no_freeze = false ∧ (e.reg.pm_nosig_freezing = true ∨ e.cgroup_freezing = true ∨
        (e.reg.pm_freezing = true ∧ p.freezer_nosig = false)))) ∧
    (p.freezer_nosig = true → e.reg.pm_nosig_freezing = false → e.cgroup_freezing = false →
      freezing_slow_path e p = false ∧ freezing e p = false) := by
  cases hnf : p.no_freeze <;> cases hns : e.reg.pm_nosig_freezing <;>
    cases hcg : e.cgroup_freezing <;> cases hpf : e.reg.pm_freezing <;>
    cases hfn : p.freezer_nosig <;>
    simp [freezing_slow_path, freezing, hnf, hns, hcg, hpf, hfn]

/-- Claim C2 witness: Scenario B at a concrete input — a task preferring
direct wakes, a registry with only signaled freezing in effect. -/
theorem freezing_slow_path_spec_witness :
    freezing_slow_path
        { reg := { system_freezing_cnt := 1, pm_freezing := true, pm_nosig_freezing := false },
          cgroup_freezing := false, kthread_should_stop := false }
        { no_freeze := false, freezer_nosig := true, pf_freezing := false,
          pf_frozen := false, sched := SchedState.running, sigpending := false } = false ∧
    freezing
        { reg := { system_freezing_cnt := 1, pm_freezing := true, pm_nosig_freezing := false },
          cgroup_freezing := false, kthread_should_stop := false }
        { no_freeze := false, freezer_nosig := true, pf_freezing := false,
          pf_frozen := false, sched := SchedState.running, sigpending := false } = false :=
  (freezing_slow_path_spec _ _).2 rfl rfl rfl

/-- Claim C3: `freeze_task` returns false iff the target is not a current
freeze target or is already frozen; in every other case it delivers exactly
one wake — the signal-like wake when `freezer_nosig` is clear, the plain
interruptible-state wake otherwise — and returns true. -/
theorem freeze_task_spec (e : Env) (p : Task) :
    ((freeze_task e p).1 = false ↔ (freezing e p = false ∨ frozen p = true)) ∧
    ((freeze_task e p).1 = true →
      (freeze_task e p).2 =
        some (if p.freezer_nosig then WakeKind.plainWake else WakeKind.signalWake)) ∧
    ((freeze_task e p).1 = false → (freeze_task e p).2 = none) := by
  cases hf : freezing e p <;> cases hz : p.pf_frozen <;> cases hn : p.freezer_nosig <;>
    simp [freeze_task, frozen, should_send_signal, hf, hz, hn]

/-- Claim C3 witness: a freezing, not-yet-frozen task without
`freezer_nosig` receives the signal-like wake. -/
theorem freeze_task_spec_witness :
    (freeze_task
        { reg := { system_freezing_cnt := 1, pm_freezing := false, pm_nosig_freezing := true },
          cgroup_freezing := false, kthread_should_stop := false }
        { no_freeze := false, freezer_nosig := false, pf_freezing := false,
          pf_frozen := false, sched := SchedState.interruptible, sigpending := false }).2 =
      some WakeKind.signalWake := by
  have h := (freeze_task_spec
      { reg := { system_freezing_cnt := 1, pm_freezing := false, pm_nosig_freezing := true },
        cgroup_freezing := false, kthread_should_stop := false }
      { no_freeze := false, freezer_nosig := false, pf_freezing := false,
        pf_frozen := false, sched := SchedState.interruptible, sigpending := false }).2.1
      (by decide)
  simpa using h

/-- Claim C7: a task with `no_freeze = true` is never a freeze target:
`should_freeze` (`freezing`, and its slow path) is false and `freeze_task`
returns false with no wake delivered, for every registry state and group
predicate. -/
theorem no_freeze_never_target (e : Env) (p : Task) (h : p.no_freeze = true) :
    freezing e p = false ∧ freezing_slow_path e p = false ∧
      freeze_task e p = (false, none) := by
  have hs : freezing_slow_path e p = false := by simp [freezing_slow_path, h]
  have hf : freezing e p = false := by simp [freezing, hs]
  exact ⟨hf, hs, by simp [freeze_task, hf]⟩

/-- Claim C7 witness: an opted-out task under a registry with every freezing
condition active and the group predicate true is still not a target. -/
theorem no_freeze_never_target_witness :
    freezing
        { reg := { system_freezing_cnt := 3, pm_freezing := true, pm_nosig_freezing := true },
          cgroup_freezing := true, kthread_should_stop := false }
        { no_freeze := true, freezer_nosig := false, pf_freezing := false,
          pf_frozen := false, sched := SchedState.running, sigpending := false } = false ∧
    freezing_slow_path
        { reg := { system_freezing_cnt := 3, pm_freezing := true, pm_nosig_freezing := true },
          cgroup_freezing := true, kthread_should_stop := false }
        { no_freeze := true, freezer_nosig := false, pf_freezing := false,
          pf_frozen := false, sched := SchedState.running, sigpending := false } = false ∧
    freeze_task
        { reg := { system_freezing_cnt := 3, pm_freezing := true, pm_nosig_freezing := true },
          cgroup_freezing := true, kthread_should_stop := false }
        { no_freeze := true, freezer_nosig := false, pf_freezing := false,
          pf_frozen := false, sched := SchedState.running, sigpending := false } = (false, none) :=
  no_freeze_never_target _ _ rfl

/-- Claim C8: `__thaw_task` is idempotent — calling it twice in a row (with
the same externally pending triggers) produces the same end state as calling
it once — and it only touches scheduling state and pending-notification
bookkeeping: all four freezer flags are left unchanged. -/
theorem thaw_task_idempotent (has_pending : Bool) (p : Task) :
    __thaw_task has_pending (__thaw_task has_pending p) = __thaw_task has_pending p ∧
    (__thaw_task has_pending p).no_freeze = p.no_freeze ∧
    (__thaw_task has_pending p).freezer_nosig = p.freezer_nosig ∧
    (__thaw_task has_pending p).pf_freezing = p.pf_freezing ∧
    (__thaw_task has_pending p).pf_frozen = p.pf_frozen := by
  cases hz : p.pf_frozen <;> cases hp : has_pending <;>
    cases hsc : p.sched <;>
    simp [__thaw_task, frozen, wake_up_process, recalc_sigpending_and_wake, hz, hp, hsc]

/-- A property preserved by every step of `__refrigerator` is preserved by
every run. -/
theorem refrigeratorRun_preserves (b : Bool) (P : RState → Prop)
    (h : ∀ e s, P s → P (refrigeratorStep b e s)) :
    ∀ (envs : List Env) (s : RState), P s → P (refrigeratorRun b envs s) := by
  intro envs
  induction envs with
  | nil => exact fun s hs => hs
  | cons e rest ih =>
      intro s hs
      simp only [refrigeratorRun]
      exact ih _ (h e s hs)

/-- A property preserved by every step of `__refrigerator` that does not
take the `goto repeat` branch is preserved by every run without re-entry. -/
theorem refrigeratorRun_preserves_nr (b : Bool) (P : RState → Prop)
    (h : ∀ e s, P s → (s.pc = RPC.exitCheck → freezing e s.task = false) →
      P (refrigeratorStep b e s)) :
    ∀ (envs : List Env) (s : RState), P s → noReentry b envs s = true →
      P (refrigeratorRun b envs s) := by
  intro envs
  induction envs with
  | nil => exact fun s hs _ => hs
  | cons e rest ih =>
      intro s hs hnr
      simp only [noReentry, Bool.and_eq_true] at hnr
      obtain ⟨h1, h2⟩ := hnr
      simp only [refrigeratorRun]
      refine ih _ (h e s hs ?_) h2
      intro hpc
      rw [if_pos hpc] at h1
      simpa using h1

/-- No step of `__refrigerator` changes the target task's opt-out flags. -/
theorem refrigeratorStep_preserves_optflags (b : Bool) (e : Env) (s : RState) :
    (refrigeratorStep b e s).task.no_freeze = s.task.no_freeze ∧
    (refrigeratorStep b e s).task.freezer_nosig = s.task.freezer_nosig := by
  obtain ⟨t, sv, wf, ef, pc⟩ := s
  cases pc <;> simp only [refrigeratorStep] <;>
    refine ⟨?_, ?_⟩ <;> first | trivial | (split <;> rfl)

/-- A task with `PF_NOFREEZE` set never satisfies the freeze predicate. -/
theorem freezing_of_no_freeze (e : Env) (p : Task) (h : p.no_freeze = true) :
    freezing e p = false := by
  simp [freezing, freezing_slow_path, h]

/-- The exit re-check under `freezer_lock`, when the predicate is still
true, re-enters the procedure at `saveState` with `PF_FROZEN` (still) set. -/
theorem refrigeratorStep_exitCheck_goto (b : Bool) (e : Env) (s : RState)
    (hpc : s.pc = RPC.exitCheck) (hf : freezing e s.task = true) :
    refrigeratorStep b e s =
      { s with task := { s.task with pf_frozen := true }, pc := RPC.saveState } := by
  obtain ⟨t', sv, wf, ef, pc⟩ := s
  cases pc <;> simp_all [refrigeratorStep]

/-- `was_frozen` is monotone along any run: once recorded it stays set. -/
theorem refrigeratorRun_was_frozen_mono (b : Bool) (envs : List Env) (s : RState)
    (h : s.was_frozen = true) : (refrigeratorRun b envs s).was_frozen = true := by
  refine refrigeratorRun_preserves b (fun u => u.was_frozen = true) ?_ envs s h
  intro e u hu
  obtain ⟨t', sv, wf, ef, pc⟩ := u
  cases pc <;> simp only [refrigeratorStep] <;>
    first
      | (split <;> simp_all)
      | simp_all

/-- No run of `__refrigerator` changes the target task's opt-out flags. -/
theorem refrigeratorRun_optflags (b : Bool) (envs : List Env) (s : RState) :
    (refrigeratorRun b envs s).task.no_freeze = s.task.no_freeze ∧
    (refrigeratorRun b envs s).task.freezer_nosig = s.task.freezer_nosig := by
  refine refrigeratorRun_preserves b
      (fun u => u.task.no_freeze = s.task.no_freeze ∧
        u.task.freezer_nosig = s.task.freezer_nosig) ?_ envs s ⟨rfl, rfl⟩
  intro e u hu
  have h := refrigeratorStep_preserves_optflags b e u
  exact ⟨h.1.trans hu.1, h.2.trans hu.2⟩

/-- A wait-loop iteration whose environment keeps the predicate true records
`was_frozen`. -/
theorem waitLoop_sets_was_frozen (b : Bool) (e : Env) (s : RState)
    (hpc : s.pc = RPC.waitLoop) (hb : b = false)
    (hf : freezing e { s.task with sched := SchedState.uninterruptible } = true) :
    (refrigeratorStep b e s).was_frozen = true := by
  subst hb
  obtain ⟨t', sv, wf, ef, pc⟩ := s
  cases pc <;> simp_all [refrigeratorStep]

/-- Claim C4: round-trip — if a task runs `__refrigerator` and the exit
re-check never finds the predicate true again (no second episode triggers
the re-entry path), then on return the task's execution state is restored
to exactly the state it had on entry. -/
theorem refrigerator_roundtrip (b : Bool) (envs : List Env) (t : Task)
    (hnr : noReentry b envs (refrigeratorInit t) = true)
    (hdone : (refrigeratorRun b envs (refrigeratorInit t)).pc = RPC.done) :
    (refrigeratorRun b envs (refrigeratorInit t)).task.sched = t.sched := by
  have key := refrigeratorRun_preserves_nr b
      (fun s => (if s.pc = RPC.enterFrozen ∨ s.pc = RPC.saveState ∨ s.pc = RPC.done
                 then s.task.sched else s.save) = t.sched)
      (by
        intro e s hs hex
        obtain ⟨t', sv, wf, ef, pc⟩ := s
        cases pc
        case enterFrozen => simpa [refrigeratorStep] using hs
        case saveState => simpa [refrigeratorStep] using hs
        case clearSignal => simpa [refrigeratorStep] using hs
        case setFreezing => simpa [refrigeratorStep] using hs
        case waitLoop =>
            simp only [refrigeratorStep]
            split <;> simpa [refrigeratorStep] using hs
        case clearFreezing => simpa [refrigeratorStep] using hs
        case exitCheck =>
            have hf : freezing e t' = false := hex rfl
            simp only [refrigeratorStep, hf]
            simpa using hs
        case restoreState => simpa [refrigeratorStep] using hs
        case done => simpa [refrigeratorStep] using hs)
      envs (refrigeratorInit t) (by simp [refrigeratorInit]) hnr
  simpa [hdone] using key

/-- Claim C4 witness: a concrete single-episode run — the episode is active
for the first loop iteration, then ends; the task entered running and
returns running. -/
theorem refrigerator_roundtrip_witness :
    (refrigeratorRun false
        [envNosigActive, envNosigActive, envNosigActive, envNosigActive, envNosigActive,
         envIdle, envIdle, envIdle, envIdle]
        (refrigeratorInit taskDefault)).task.sched = taskDefault.sched :=
  refrigerator_roundtrip false _ _ (by decide) (by decide)

/-- Claim C5 counterexample: the claim "frozen implies the freezing flag was
observed true at or before that instant" is false on the code — the very
first step of `__refrigerator` (during an active no-signal episode, with a
default task) sets `frozen` while `PF_FREEZING` has never yet been true:
`PF_FROZEN` is set (line 63) before `PF_FREEZING` is set (line 74). -/
theorem frozen_before_freezing_counterexample :
    (refrigeratorRun false [envNosigActive] (refrigeratorInit taskDefault)).task.pf_frozen
        = true ∧
    (refrigeratorRun false [envNosigActive] (refrigeratorInit taskDefault)).everFreezing
        = false ∧
    (refrigeratorRun false [envNosigActive] (refrigeratorInit taskDefault)).task.pf_freezing
        = false := by
  decide

/-- Claim C5 (amended): once `__refrigerator` has reached its wait loop —
from the first loop iteration through the exit re-check — `frozen` is true
and the `freezing` flag has been observed true at or before that instant;
only in the short setup window between setting `frozen` and setting the
`freezing` flag (saving state, clearing the pending signal) does `frozen`
hold without the freezing phase having been observed. -/
theorem frozen_implies_freezing_observed_in_wait_loop
    (b : Bool) (envs : List Env) (t : Task)
    (h : (refrigeratorRun b envs (refrigeratorInit t)).pc = RPC.waitLoop ∨
         (refrigeratorRun b envs (refrigeratorInit t)).pc = RPC.clearFreezing ∨
         (refrigeratorRun b envs (refrigeratorInit t)).pc = RPC.exitCheck) :
    (refrigeratorRun b envs (refrigeratorInit t)).task.pf_frozen = true ∧
    (refrigeratorRun b envs (refrigeratorInit t)).everFreezing = true := by
  have key := refrigeratorRun_preserves b
      (fun s =>
        ((s.pc = RPC.saveState ∨ s.pc = RPC.clearSignal ∨ s.pc = RPC.setFreezing) →
          s.task.pf_frozen = true) ∧
        ((s.pc = RPC.waitLoop ∨ s.pc = RPC.clearFreezing ∨ s.pc = RPC.exitCheck) →
          s.task.pf_frozen = true ∧ s.everFreezing = true))
      (by
        intro e s hs
        obtain ⟨t', sv, wf, ef, pc⟩ := s
        cases pc <;> simp only [refrigeratorStep] <;>
          first
            | (split <;> simp_all)
            | simp_all)
      envs (refrigeratorInit t) (by simp [refrigeratorInit])
  exact key.2 h

/-- Claim C5 amended witness: a concrete run parked in the wait loop has
both `frozen` and the freezing-phase observation. -/
theorem frozen_implies_freezing_observed_in_wait_loop_witness :
    (refrigeratorRun false [envNosigActive, envNosigActive, envNosigActive, envNosigActive]
        (refrigeratorInit taskDefault)).task.pf_frozen = true ∧
    (refrigeratorRun false [envNosigActive, envNosigActive, envNosigActive, envNosigActive]
        (refrigeratorInit taskDefault)).everFreezing = true :=
  frozen_implies_freezing_observed_in_wait_loop false _ _ (Or.inl (by decide))

/-- Claim C6 counterexample: the claim "`no_freeze` implies `¬frozen` at
every instant, including across any direct call of `enter_refrigerator`" is
false on the code — `__refrigerator` sets `PF_FROZEN` unconditionally, so
after its first step a directly calling opted-out task is transiently
`frozen` while `no_freeze` holds. -/
theorem no_freeze_frozen_counterexample :
    (refrigeratorRun false [envNosigActive] (refrigeratorInit taskOptedOut)).task.no_freeze
        = true ∧
    (refrigeratorRun false [envNosigActive] (refrigeratorInit taskOptedOut)).task.pf_frozen
        = true := by
  decide

/-- Claim C6 (amended): a direct call of `__refrigerator` by a task with
`no_freeze = true` transiently sets `frozen` inside the call, but the call
immediately exits: whenever such a run returns (reaches `done`), the task
is not frozen, never recorded `was_frozen`, and still has `no_freeze` set —
so outside the interior of such a call `no_freeze` still implies
`¬frozen`. -/
theorem no_freeze_refrigerator_returns_unfrozen
    (b : Bool) (envs : List Env) (t : Task) (h : t.no_freeze = true)
    (hd : (refrigeratorRun b envs (refrigeratorInit t)).pc = RPC.done) :
    (refrigeratorRun b envs (refrigeratorInit t)).task.pf_frozen = false ∧
    (refrigeratorRun b envs (refrigeratorInit t)).was_frozen = false ∧
    (refrigeratorRun b envs (refrigeratorInit t)).task.no_freeze = true := by
  have key := refrigeratorRun_preserves b
      (fun s => s.task.no_freeze = true ∧ s.was_frozen = false ∧
        ((s.pc = RPC.restoreState ∨ s.pc = RPC.done) → s.task.pf_frozen = false))
      (by
        intro e s hs
        obtain ⟨t', sv, wf, ef, pc⟩ := s
        obtain ⟨hn, hw, hz⟩ := hs
        have hn' : t'.no_freeze = true := hn
        cases pc
        case waitLoop =>
            have hf : freezing e { t' with sched := SchedState.uninterruptible } = false :=
              freezing_of_no_freeze _ _ hn'
            simp only [refrigeratorStep]
            split <;> simp_all
        case exitCheck =>
            have hf : freezing e t' = false := freezing_of_no_freeze _ _ hn'
            simp only [refrigeratorStep, hf]
            simp_all
        all_goals simp_all [refrigeratorStep])
      envs (refrigeratorInit t) (by
        refine ⟨h, rfl, ?_⟩
        intro hx
        simp [refrigeratorInit] at hx)
  exact ⟨key.2.2 (Or.inr hd), key.2.1, key.1⟩

/-- Claim C6 amended witness: a concrete direct call by an opted-out task
during an active episode runs to completion and returns unfrozen. -/
theorem no_freeze_refrigerator_returns_unfrozen_witness :
    (refrigeratorRun false
        [envNosigActive, envNosigActive, envNosigActive, envNosigActive,
         envNosigActive, envNosigActive, envNosigActive, envNosigActive]
        (refrigeratorInit taskOptedOut)).task.pf_frozen = false ∧
    (refrigeratorRun false
        [envNosigActive, envNosigActive, envNosigActive, envNosigActive,
         envNosigActive, envNosigActive, envNosigActive, envNosigActive]
        (refrigeratorInit taskOptedOut)).was_frozen = false ∧
    (refrigeratorRun false
        [envNosigActive, envNosigActive, envNosigActive, envNosigActive,
         envNosigActive, envNosigActive, envNosigActive, envNosigActive]
        (refrigeratorInit taskOptedOut)).task.no_freeze = true :=
  no_freeze_refrigerator_returns_unfrozen false _ _ (by decide) (by decide)

/-- Claim C1: in `__refrigerator`, the `frozen` flag is cleared only at a
step whose atomic `freezer_lock` critical section has just evaluated
`should_freeze` (the `freezing` predicate) to false: whenever a step turns
`frozen` from true to false, the predicate is false in that step's
environment; if the predicate is still true at the exit re-check the whole
procedure is re-entered instead, so `frozen` is never cleared while
`should_freeze` holds. -/
theorem refrigerator_clears_frozen_only_when_not_freezing
    (b : Bool) (e : Env) (s : RState)
    (hb : s.task.pf_frozen = true)
    (hc : (refrigeratorStep b e s).task.pf_frozen = false) :
    freezing e s.task = false := by
  obtain ⟨t, sv, wf, ef, pc⟩ := s
  cases pc <;> simp only [refrigeratorStep] at hc
  case enterFrozen => simp at hc
  case saveState => simp_all
  case clearSignal => simp_all
  case setFreezing => simp_all
  case waitLoop =>
      split at hc <;> simp_all
  case clearFreezing => simp_all
  case exitCheck =>
      cases hfz : freezing e t
      · rfl
      · rw [hfz] at hc; simp at hc
  case restoreState => simp_all
  case done => simp_all

/-- Claim C1 witness: a concrete exit re-check step under an idle registry
clears `frozen`, and indeed the predicate is false there. -/
theorem refrigerator_clears_frozen_only_when_not_freezing_witness :
    freezing
        { reg := { system_freezing_cnt := 0, pm_freezing := false, pm_nosig_freezing := false },
          cgroup_freezing := false, kthread_should_stop := false }
        ({ task := { no_freeze := false, freezer_nosig := false, pf_freezing := false,
                     pf_frozen := true, sched := SchedState.uninterruptible, sigpending := false },
           save := SchedState.running, was_frozen := true, everFreezing := true,
           pc := RPC.exitCheck } : RState).task = false :=
  refrigerator_clears_frozen_only_when_not_freezing false _ _ (by decide) (by decide)

/-- Claim C10: if `__refrigerator` takes the re-entry path (the predicate is
still true at the exit re-check under `freezer_lock`), the re-executed
procedure re-runs `save = current->state` while the task's state is still
"blocked, non-interruptible" from the wait loop; consequently, after any
re-entered pass, whenever the run finally returns, the state restored on
exit is `TASK_UNINTERRUPTIBLE` — not the execution state the task had when
it first entered `__refrigerator`. -/
theorem reentry_restores_uninterruptible
    (b : Bool) (envs1 envs2 : List Env) (e : Env) (t : Task)
    (hpc : (refrigeratorRun b envs1 (refrigeratorInit t)).pc = RPC.exitCheck)
    (hf : freezing e (refrigeratorRun b envs1 (refrigeratorInit t)).task = true)
    (hd : (refrigeratorRun b envs2
        (refrigeratorStep b e (refrigeratorRun b envs1 (refrigeratorInit t)))).pc
          = RPC.done) :
    (refrigeratorRun b envs2
        (refrigeratorStep b e (refrigeratorRun b envs1 (refrigeratorInit t)))).task.sched
      = SchedState.uninterruptible := by
  have hG := refrigeratorRun_preserves b
      (fun s => (s.pc = RPC.clearFreezing ∨ s.pc = RPC.exitCheck) →
        s.task.sched = SchedState.uninterruptible)
      (by
        intro e' s hs
        obtain ⟨t', sv, wf, ef, pc⟩ := s
        cases pc <;> simp only [refrigeratorStep] <;>
          first
            | (split <;> simp_all)
            | simp_all)
      envs1 (refrigeratorInit t) (by
        intro hx
        simp [refrigeratorInit] at hx)
  have hsched : (refrigeratorRun b envs1 (refrigeratorInit t)).task.sched
      = SchedState.uninterruptible := hG (Or.inr hpc)
  have hgoto := refrigeratorStep_exitCheck_goto b e
      (refrigeratorRun b envs1 (refrigeratorInit t)) hpc hf
  have hK := refrigeratorRun_preserves b
      (fun s =>
        ((s.pc = RPC.enterFrozen ∨ s.pc = RPC.saveState ∨ s.pc = RPC.done) →
          s.task.sched = SchedState.uninterruptible) ∧
        ((s.pc = RPC.clearSignal ∨ s.pc = RPC.setFreezing ∨ s.pc = RPC.waitLoop ∨
          s.pc = RPC.clearFreezing ∨ s.pc = RPC.exitCheck ∨ s.pc = RPC.restoreState) →
          s.save = SchedState.uninterruptible) ∧
        ((s.pc = RPC.clearFreezing ∨ s.pc = RPC.exitCheck) →
          s.task.sched = SchedState.uninterruptible))
      (by
        intro e' s hs
        obtain ⟨t', sv, wf, ef, pc⟩ := s
        cases pc <;> simp only [refrigeratorStep] <;>
          first
            | (split <;> simp_all)
            | simp_all)
      envs2 (refrigeratorStep b e (refrigeratorRun b envs1 (refrigeratorInit t)))
      (by
        rw [hgoto]
        refine ⟨fun _ => ?_, fun hx => ?_, fun hx => ?_⟩
        · simpa using hsched
        · simp at hx
        · simp at hx)
  exact hK.1 (Or.inr (Or.inr hd))

/-- Claim C10 witness: a concrete run in which the first pass ends, a new
episode appears exactly at the exit re-check, and the re-entered pass then
runs to completion: the task entered running but is restored to
`TASK_UNINTERRUPTIBLE`. -/
theorem reentry_restores_uninterruptible_witness :
    (refrigeratorRun false
        [envIdle, envIdle, envIdle, envIdle, envIdle, envIdle, envIdle]
        (refrigeratorStep false envNosigActive
          (refrigeratorRun false
            [envNosigActive, envNosigActive, envNosigActive, envNosigActive, envIdle, envIdle]
            (refrigeratorInit taskDefault)))).task.sched
      = SchedState.uninterruptible :=
  reentry_restores_uninterruptible false _ _ envNosigActive taskDefault
    (by decide) (by decide) (by decide)

/-- Claim C9: `__set_freezable` clears the calling task's `no_freeze` flag
(and, with `with_signal`, its `freezer_nosig` flag) under `freezer_lock`,
then synchronously evaluates the freeze predicate and, if it holds, enters
the refrigerator and returns its result, else returns false; hence a
`__set_freezable` call made while no-signal freezing is in effect (at the
predicate check and still at the first wait-loop iteration) returns true
when the refrigerator run completes: the task froze during registration. -/
theorem set_freezable_spec (ws : Bool) (e0 ea eb ec ed ee : Env) (rest : List Env) (t : Task)
    (h1 : ee.reg.pm_nosig_freezing = true)
    (h2 : ¬ ee.reg.system_freezing_cnt = 0) :
    (__set_freezable ws e0 (ea :: eb :: ec :: ed :: ee :: rest) t).2.task.no_freeze
        = false ∧
    (ws = true →
      (__set_freezable ws e0 (ea :: eb :: ec :: ed :: ee :: rest) t).2.task.freezer_nosig
        = false) ∧
    (freezing e0 (set_freezable_flags ws t) = false →
      (__set_freezable ws e0 (ea :: eb :: ec :: ed :: ee :: rest) t).1 = false) ∧
    (e0.reg.pm_nosig_freezing = true → ¬ e0.reg.system_freezing_cnt = 0 →
      (refrigeratorRun false (ea :: eb :: ec :: ed :: ee :: rest)
        (refrigeratorInit (set_freezable_flags ws t))).pc = RPC.done →
      (__set_freezable ws e0 (ea :: eb :: ec :: ed :: ee :: rest) t).1 = true) := by
  have hopt := refrigeratorRun_optflags false (ea :: eb :: ec :: ed :: ee :: rest)
      (refrigeratorInit (set_freezable_flags ws t))
  refine ⟨?_, ?_, ?_, ?_⟩
  · by_cases hf0 : freezing e0 (set_freezable_flags ws t) = true
    · simp only [__set_freezable, try_to_freeze, hf0, if_true]
      rw [hopt.1]
      simp [refrigeratorInit, set_freezable_flags]
    · simp only [Bool.not_eq_true] at hf0
      simp only [__set_freezable, try_to_freeze, hf0]
      simp [set_freezable_flags, refrigeratorInit]
  · intro hws
    subst hws
    by_cases hf0 : freezing e0 (set_freezable_flags true t) = true
    · simp only [__set_freezable, try_to_freeze, hf0, if_true]
      rw [hopt.2]
      simp [refrigeratorInit, set_freezable_flags]
    · simp only [Bool.not_eq_true] at hf0
      simp only [__set_freezable, try_to_freeze, hf0]
      simp [set_freezable_flags, refrigeratorInit]
  · intro hf0
    simp [__set_freezable, try_to_freeze, hf0]
  · intro hn0 hc0 _
    have hf0 : freezing e0 (set_freezable_flags ws t) = true := by
      simp [freezing, freezing_slow_path, set_freezable_flags, hn0, hc0]
    simp only [__set_freezable, try_to_freeze, hf0, if_true]
    show (refrigeratorRun false rest
        (refrigeratorStep false ee
          (refrigeratorStep false ed
            (refrigeratorStep false ec
              (refrigeratorStep false eb
                (refrigeratorStep false ea
                  (refrigeratorInit (set_freezable_flags ws t)))))))).was_frozen = true
    apply refrigeratorRun_was_frozen_mono
    apply waitLoop_sets_was_frozen false ee _ rfl rfl
    simp [refrigeratorStep, refrigeratorInit, set_freezable_flags,
      freezing, freezing_slow_path, h1, h2]

/-- Claim C9 witness: with-notification registration during an active
no-signal episode that persists through the first loop iteration and then
ends — the call returns true and the task ends with both opt-out flags
clear. -/
theorem set_freezable_spec_witness :
    (__set_freezable true envNosigActive
        [envNosigActive, envNosigActive, envNosigActive, envNosigActive, envNosigActive,
         envIdle, envIdle, envIdle, envIdle] taskDefault).2.task.no_freeze = false ∧
    (__set_freezable true envNosigActive
        [envNosigActive, envNosigActive, envNosigActive, envNosigActive, envNosigActive,
         envIdle, envIdle, envIdle, envIdle] taskDefault).2.task.freezer_nosig = false ∧
    (__set_freezable true envNosigActive
        [envNosigActive, envNosigActive, envNosigActive, envNosigActive, envNosigActive,
         envIdle, envIdle, envIdle, envIdle] taskDefault).1 = true := by
  have h := set_freezable_spec true envNosigActive envNosigActive envNosigActive
      envNosigActive envNosigActive envNosigActive
      [envIdle, envIdle, envIdle, envIdle] taskDefault (by decide) (by decide)
  exact ⟨h.1, h.2.1 rfl, h.2.2.2 (by decide) (by decide) (by decide)⟩

end Freezer
